import Mathlib

/-!
Verification of the client-side data layer of the LRT accessibility-report
frontend (single source file `src/App.jsx`).

The embedding below translates the relevant JavaScript fragments into Lean:

* JavaScript numbers that can be `NaN` are modelled as `Option Int`
  (`none` = `NaN`); the comparator passed to `Array.prototype.sort`
  returns such a value, and the ECMAScript sort coerces a `NaN`
  comparator result to `+0` (treat as a tie).
* `Array.prototype.sort` is required by ECMA-262 to be stable; for
  comparator calls that are consistent, every conforming stable sort
  yields the same list, which we realise with a stable insertion sort.
* Fallible parsing (`new Date(...)`) yields `Option Int` millisecond
  timestamps (`none` = Invalid Date / `NaN`).
-/

namespace App

/-- JavaScript field value inside the report payload: `null`, a string,
or a (finite) number. Numbers are modelled exactly over `ℚ`; every number
the client manipulates here (coordinates passed through, counts) is only
moved around, never rounded. -/
inductive JsValue where
  | null : JsValue
  | str (s : String) : JsValue
  | num (q : ℚ) : JsValue
deriving DecidableEq, Repr

/-- A selected file: only `name` and `size` (bytes) are read by the app. -/
structure JsFile where
  name : String
  size : Nat
deriving DecidableEq, Repr

/-- JavaScript subtraction lifted to possibly-`NaN` operands:
`NaN - x = x - NaN = NaN`. -/
def jsSub : Option Int → Option Int → Option Int
  | some x, some y => some (x - y)
  | _, _ => none

/-- ECMAScript `SortCompare`: a `NaN` comparator result is coerced to `+0`.
`jsLe cmp a b` holds when the (coerced) comparator result for `(a, b)` is
`≤ 0`, i.e. the sort may keep `a` in front of `b`. -/
def jsLe {α : Type} (cmp : α → α → Option Int) (a b : α) : Bool :=
  match cmp a b with
  | none => true
  | some v => decide (v ≤ 0)

/-- Stable insertion of `x` into `l`: `x` goes in front of the first
element it compares `≤ 0` against (so a tie keeps `x`, the element that
occurred earlier in the input, in front). -/
def insertJS {α : Type} (le : α → α → Bool) (x : α) : List α → List α
  | [] => [x]
  | y :: ys => if le x y then x :: y :: ys else y :: insertJS le x ys

/-- Stable sort (insertion sort, processing the input back to front, so
each element is inserted into the sorted list of the elements that
followed it). For a consistent comparator this agrees with every
ECMA-262-conforming `Array.prototype.sort`. -/
def jsStableSort {α : Type} (le : α → α → Bool) (l : List α) : List α :=
  l.foldr (insertJS le) []

/-! ### Date parsing (`new Date(created_date)`)

`created_date` values are ISO-8601 calendar dates (`"YYYY-MM-DD"`, set by
the server, §3 of the spec). ECMA-262 parses a date-only ISO string as a
UTC timestamp (milliseconds since the epoch) and yields `NaN` (Invalid
Date) for a missing value (`new Date(undefined)`) or a malformed string.
We compute the epoch day with the standard era-based civil-calendar
algorithm (the same day arithmetic as ECMAScript `MakeDay`). -/

/-- Split a character list at every character satisfying `p`
(the separators are dropped, like `String.prototype.split`). -/
def splitChars (p : Char → Bool) : List Char → List (List Char)
  | [] => [[]]
  | c :: cs =>
      let r := splitChars p cs
      if p c then [] :: r
      else
        match r with
        | [] => [[c]]
        | t :: ts => (c :: t) :: ts

/-- Decimal value of an all-digit character list; `none` if any
character is not a digit. -/
def digitsVal? : List Char → Nat → Option Nat
  | [], acc => some acc
  | c :: cs, acc =>
      if c.isDigit then digitsVal? cs (acc * 10 + (c.toNat - 48)) else none

/-- Gregorian leap year. -/
def isLeapYear (y : Nat) : Bool :=
  y % 4 == 0 && (y % 100 != 0 || y % 400 == 0)

/-- Days in month `m` (1-based) of year `y`. -/
def daysInMonth (y m : Nat) : Nat :=
  if m == 2 then (if isLeapYear y then 29 else 28)
  else if m == 4 || m == 6 || m == 9 || m == 11 then 30
  else 31

/-- Days since 1970-01-01 of the civil date `y-m-d` (era-based civil
calendar algorithm; the year is shifted by 400 — exactly 146097 days —
to keep the intermediate arithmetic in `Nat`). -/
def daysFromCivil (y m d : Nat) : Int :=
  let yAdj : Nat := y + 400 - (if m ≤ 2 then 1 else 0)
  let era : Nat := yAdj / 400
  let yoe : Nat := yAdj % 400
  let mp : Nat := (m + 9) % 12
  let doy : Nat := (153 * mp + 2) / 5 + d - 1
  let doe : Nat := yoe * 365 + yoe / 4 - yoe / 100 + doy
  (era * 146097 + doe : Int) - 146097 - 719468

/-- Parse an ISO `"YYYY-MM-DD"` string to a UTC millisecond timestamp;
`none` models `NaN` (Invalid Date). -/
def parseISODateMs (s : String) : Option Int :=
  match splitChars (fun c => c == '-') s.data with
  | [ys, ms, ds] =>
      if ys.length == 4 && ms.length == 2 && ds.length == 2 then
        match digitsVal? ys 0, digitsVal? ms 0, digitsVal? ds 0 with
        | some y, some m, some d =>
            if 1 ≤ m && m ≤ 12 && 1 ≤ d && d ≤ daysInMonth y m then
              some (daysFromCivil y m d * 86400000)
            else none
        | _, _, _ => none
      else none
  | _ => none

/-! ### The Report entity and the Dashboard sort (`sortedReports`) -/

/-- A report record as fetched from `GET /reports` (§3 of the spec;
fields the data layer reads). Optional fields model absent JSON keys. -/
structure Report where
  id : Nat
  station_city : String
  station_name : String
  issue_category : String
  description : String
  urgency_level : String
  status : String
  created_date : Option String
  created_by : Option String
  photo_url : Option String
deriving DecidableEq, Repr

/-- `new Date(r.created_date).getTime()`: `NaN` when the field is absent
or does not parse. -/
def jsDateOf (r : Report) : Option Int :=
  match r.created_date with
  | none => none
  | some s => parseISODateMs s

/-- The `urgencyOrder` lookup object
`{ "Critical": 4, "High": 3, "Medium": 2, "Low": 1 }`; a key that is not
present yields `undefined` (so arithmetic on it yields `NaN`). -/
def urgencyOrder : String → Option Int
  | "Critical" => some 4
  | "High" => some 3
  | "Medium" => some 2
  | "Low" => some 1
  | _ => none

/-- Rank of a report under `urgencyOrder` (lookup of its
`urgency_level`). -/
def urgencyRankOf (r : Report) : Option Int :=
  urgencyOrder r.urgency_level

/-- The comparator of `DashboardContent.sortedReports`:
for the default / `created_date:desc` it returns
`new Date(b.created_date) - new Date(a.created_date)`, for
`urgency_level:desc` it returns
`urgencyOrder[b.urgency_level] - urgencyOrder[a.urgency_level]`,
otherwise `0`. `none` models a `NaN` result. -/
def reportComparator (sortKey : Option String) (a b : Report) : Option Int :=
  if sortKey = none ∨ sortKey = some "created_date:desc" then
    jsSub (jsDateOf b) (jsDateOf a)
  else if sortKey = some "urgency_level:desc" then
    jsSub (urgencyRankOf b) (urgencyRankOf a)
  else
    some 0

/-- `sortedReports`: the client-side sort
`[...reports].sort((a, b) => ...)` of `DashboardContent`, for the sort
key held in `filters.sort` (`none` = key absent). -/
def sortedReports (sortKey : Option String) (reports : List Report) :
    List Report :=
  jsStableSort (jsLe (reportComparator sortKey)) reports

/-! ### Query keys and invalidation (TanStack Query)

The app registers three query shapes:
`['reports', filters]` (DashboardContent), `['stats']` (AnalyticsContent)
and `['report', id]` (ReportsContent). `HomeContent` wires the create
mutation to
`onSuccess={() => queryClient.invalidateQueries({ queryKey: ['reports', 'stats'] })}`.
`invalidateQueries` with a non-`exact` `queryKey` filter marks exactly the
queries whose key array starts with the given array, comparing element by
element with partial deep equality (a string matches an equal string; an
object matches an object containing all its properties with equal values;
a string never matches an object). -/

/-- The `filters` state object of `DashboardContent` (§3 FilterState):
a field is `none` when the property is absent from the object. -/
structure FilterState where
  search : Option String
  status : Option String
  urgency : Option String
  city : Option String
  sort : Option String
deriving DecidableEq, Repr

/-- One element of a query key array: a string or a filters object. -/
inductive KeyPart where
  | str (s : String) : KeyPart
  | filt (f : FilterState) : KeyPart
deriving DecidableEq, Repr

/-- Partial deep equality of an invalidation-filter element `b` against a
query-key element `a`: every property of `b` must occur in `a` with an
equal value; values of different type never match. -/
def partEq (a b : KeyPart) : Bool :=
  match a, b with
  | .str x, .str y => x == y
  | .filt qf, .filt bf =>
      (match bf.search with | none => true | some v => qf.search == some v) &&
      (match bf.status with | none => true | some v => qf.status == some v) &&
      (match bf.urgency with | none => true | some v => qf.urgency == some v) &&
      (match bf.city with | none => true | some v => qf.city == some v) &&
      (match bf.sort with | none => true | some v => qf.sort == some v)
  | _, _ => false

/-- `partialMatchKey`: the invalidation key `invKey` matches the query
key `qKey` iff `invKey` is an element-wise partial prefix of `qKey`. -/
def partialKeyMatch : List KeyPart → List KeyPart → Bool
  | [], _ => true
  | _ :: _, [] => false
  | p :: ps, q :: qs => partEq q p && partialKeyMatch ps qs

/-- The key filter passed by `HomeContent` after a successful create:
`['reports', 'stats']`. -/
def createSuccessInvalidationKey : List KeyPart :=
  [.str "reports", .str "stats"]

/-- The Dashboard list query key `['reports', filters]`. -/
def dashboardKey (f : FilterState) : List KeyPart :=
  [.str "reports", .filt f]

/-- The Analytics aggregate-stats query key `['stats']`. -/
def statsKey : List KeyPart := [.str "stats"]

/-- `invalidateQueries` restricted to a set of registered query keys:
the sublist of keys the filter marks stale. -/
def invalidatedKeys (invKey : List KeyPart) (keys : List (List KeyPart)) :
    List (List KeyPart) :=
  keys.filter (fun k => partialKeyMatch invKey k)

/-! ### The report form (`ReportForm`): photo selection, validation,
geolocation, payload encoding -/

/-- The `formData` state of `ReportForm` (all fields are strings,
initialised to `""` except `urgency_level = "Medium"`). -/
structure FormState where
  station_city : String
  station_name : String
  issue_category : String
  description : String
  urgency_level : String
  reporter_contact : String
deriving DecidableEq, Repr

/-- The two pieces of component state `handlePhotoChange` touches:
`photo` and `error`. -/
structure PhotoFormState where
  photo : Option JsFile
  error : Option String
deriving DecidableEq, Repr

/-- The size-limit error message set by `handlePhotoChange`. -/
def fileSizeErrorMsg : String := "File size must be less than 10MB"

/-- `handlePhotoChange`: reads `e.target.files[0]` (`none` when no file
was selected); if a file is present and its size exceeds
`10 * 1024 * 1024` bytes it only sets the error and returns, otherwise it
stores the file (or clears the photo) and clears the error. -/
def handlePhotoChange (file : Option JsFile) (st : PhotoFormState) :
    PhotoFormState :=
  if (match file with
      | some f => decide (f.size > 10 * 1024 * 1024)
      | none => false) then
    { st with error := some fileSizeErrorMsg }
  else
    { photo := file, error := none }

/-- The validation error message set by `handleSubmit`. -/
def requiredFieldsMsg : String :=
  "Please fill in all required fields (marked with *)."

/-- Result of the geolocation attempt in `handleSubmit`:
`navigator.geolocation` absent, the error callback, or the success
callback with coordinates (coordinate numbers are passed through
untouched, modelled over `ℚ`). -/
inductive GeoResult where
  | unavailable : GeoResult
  | failure : GeoResult
  | success (lat lng : ℚ) : GeoResult
deriving DecidableEq, Repr

/-- The `reportPayload` object built by `handleSubmit`:
`{...formData, status: "Submitted", latitude: null, longitude: null}`,
with the coordinates overwritten only by the geolocation success
callback. -/
structure ReportPayload where
  station_city : String
  station_name : String
  issue_category : String
  description : String
  urgency_level : String
  reporter_contact : String
  status : String
  latitude : Option ℚ
  longitude : Option ℚ
deriving DecidableEq, Repr

/-- The payload before any geolocation result is applied. -/
def basePayload (form : FormState) : ReportPayload :=
  { station_city := form.station_city
    station_name := form.station_name
    issue_category := form.issue_category
    description := form.description
    urgency_level := form.urgency_level
    reporter_contact := form.reporter_contact
    status := "Submitted"
    latitude := none
    longitude := none }

/-- Outcome of one submit attempt: either the early validation return
(with the error message stored in component state) or a call of
`mutation.mutate({ reportData, photo })`. -/
inductive SubmitOutcome where
  | validationError (msg : String) : SubmitOutcome
  | submit (reportData : ReportPayload) (photo : Option JsFile) : SubmitOutcome
deriving DecidableEq, Repr

/-- `handleSubmit`: rejects when any of `station_city`, `station_name`,
`issue_category`, `description` is falsy (they are strings, so falsy =
empty); otherwise submits — from the geolocation success callback with
the device coordinates written into the payload, from the error callback
or the no-capability branch with the coordinates left `null`. -/
def handleSubmit (form : FormState) (photo : Option JsFile)
    (geo : GeoResult) : SubmitOutcome :=
  if form.station_city = "" ∨ form.station_name = "" ∨
      form.issue_category = "" ∨ form.description = "" then
    .validationError requiredFieldsMsg
  else
    match geo with
    | .success lat lng =>
        .submit { basePayload form with
                    latitude := some lat, longitude := some lng } photo
    | _ => .submit (basePayload form) photo

/-- `Object.keys(reportData)` enumeration of the payload in insertion
order, with each field value as a `JsValue`. -/
def payloadEntries (p : ReportPayload) : List (String × JsValue) :=
  [("station_city", .str p.station_city),
   ("station_name", .str p.station_name),
   ("issue_category", .str p.issue_category),
   ("description", .str p.description),
   ("urgency_level", .str p.urgency_level),
   ("reporter_contact", .str p.reporter_contact),
   ("status", .str p.status),
   ("latitude", match p.latitude with | none => .null | some q => .num q),
   ("longitude", match p.longitude with | none => .null | some q => .num q)]

/-- One part of the multipart form body: an appended field value or the
appended photo file. -/
inductive FormPart where
  | field (v : JsValue) : FormPart
  | file (f : JsFile) : FormPart
deriving DecidableEq, Repr

/-- The `mutationFn` of `ReportForm`: builds the `FormData`, appending
every key of `reportData` whose value is not `null`, then the optional
photo under the key `"photo"`, and hands it to `submitReport`. -/
def mutationFn (reportData : ReportPayload) (photo : Option JsFile) :
    List (String × FormPart) :=
  ((payloadEntries reportData).filterMap
    (fun kv => if kv.2 = JsValue.null then none
               else some (kv.1, FormPart.field kv.2))) ++
  (match photo with
   | some f => [("photo", FormPart.file f)]
   | none => [])

/-! ### Decimal rendering (JavaScript number-to-string in template
literals) -/

/-- The character of a decimal digit (`d < 10`). -/
def digitChar : Nat → Char
  | 0 => '0' | 1 => '1' | 2 => '2' | 3 => '3' | 4 => '4'
  | 5 => '5' | 6 => '6' | 7 => '7' | 8 => '8' | 9 => '9'
  | _ => '*'

/-- Most-significant-first decimal digits, with explicit fuel so the
recursion is structural (any fuel above the input suffices). -/
def decDigitsAux (fuel : Nat) (n : Nat) : List Nat :=
  match fuel with
  | 0 => []
  | fuel + 1 => if n < 10 then [n] else decDigitsAux fuel (n / 10) ++ [n % 10]

/-- Most-significant-first decimal digits of a natural number. -/
def decDigits (n : Nat) : List Nat :=
  decDigitsAux (n + 1) n

/-- Decimal string of a natural number (the ECMAScript `ToString` of an
integral number, as interpolated by a template literal). -/
def natToStr (n : Nat) : String :=
  ((decDigits n).map digitChar).asString

/-! ### The fetch API client (`handleResponse`, `getReport`) -/

/-- The parts of a `fetch` `Response` the client reads. -/
structure JsResponse where
  ok : Bool
  status : Nat
  statusText : String
  bodyText : String
  contentType : Option String
deriving DecidableEq, Repr

/-- A thrown `Error`: only its `message` is ever consumed. -/
structure JsError where
  message : String
deriving DecidableEq, Repr

/-- A successful API result: parsed JSON (kept as its source text — no
claim inspects the parse) or plain text. -/
inductive ApiResult where
  | json (source : String) : ApiResult
  | text (t : String) : ApiResult
deriving DecidableEq, Repr

/-- `String.prototype.includes`: the needle occurs as a contiguous
substring of the haystack. -/
def jsIncludes (hay needle : String) : Bool :=
  decide (needle.data <:+: hay.data)

/-- `handleResponse`: a non-`ok` response throws
`` new Error(`API Error: ${res.status} - ${errorDetail || res.statusText}`) ``
(the body text, falling back to the status text when empty); an `ok`
response is parsed as JSON when the content type includes
`application/json`, otherwise returned as text. -/
def handleResponse (res : JsResponse) : Except JsError ApiResult :=
  if res.ok = false then
    .error ⟨"API Error: " ++ natToStr res.status ++ " - " ++
      (if res.bodyText = "" then res.statusText else res.bodyText)⟩
  else if (match res.contentType with
           | some ct => jsIncludes ct "application/json"
           | none => false) then
    .ok (.json res.bodyText)
  else
    .ok (.text res.bodyText)

/-- `getReport(id)`: fetches `/reports/{id}` and passes the response to
`handleResponse`; the transport is external, so the function is applied
to the response it produced. -/
def getReport (res : JsResponse) : Except JsError ApiResult :=
  handleResponse res

/-- Recover the status code text embedded in an API error message: drop
the 11-character prefix `"API Error: "` and keep the leading digit run. -/
def statusDigitsOfMessage (m : String) : String :=
  ((m.data.drop 11).takeWhile (fun c => c.isDigit)).asString

/-! ### The analytics view (`AnalyticsContent`) -/

/-- The server aggregate-stats object (§3 AggregateStats); `Option`
models absent fields, mappings are association lists in key order. -/
structure AggregateStats where
  total : Option Nat
  by_category : Option (List (String × Nat))
  by_urgency : Option (List (String × Nat))
  by_status : Option (List (String × Nat))
  by_city : Option (List (String × Nat))
  top_stations : Option (List (String × Nat))
deriving DecidableEq, Repr

/-- Property lookup on a stats mapping (`undefined` for a missing key). -/
def statLookup (m : List (String × Nat)) (k : String) : Option Nat :=
  (m.find? (fun kv => kv.1 == k)).map Prod.snd

/-- `stats.total || 0`. -/
def totalReports (stats : AggregateStats) : Nat :=
  match stats.total with
  | none => 0
  | some t => t

/-- `stats.by_status?.['Resolved'] || 0`. -/
def resolvedCount (stats : AggregateStats) : Nat :=
  match stats.by_status with
  | none => 0
  | some m => match statLookup m "Resolved" with
              | none => 0
              | some c => c

/-- `(stats.by_status?.['Submitted'] || 0) + (stats.by_status?.['Under Review'] || 0)`. -/
def pendingCount (stats : AggregateStats) : Nat :=
  (match stats.by_status with
   | none => 0
   | some m => (statLookup m "Submitted").getD 0) +
  (match stats.by_status with
   | none => 0
   | some m => (statLookup m "Under Review").getD 0)

/-- ECMAScript `Number.prototype.toFixed(1)` for a non-negative value:
the integer `n` with `n / 10` closest to the value (ties to the larger
`n`), rendered with one digit after the decimal point. The arithmetic is
carried out exactly over `ℚ`; for the integer counts involved the
binary64 evaluation of `(resolved / total) * 100` rounds to the same
decimal in the cases stated below. -/
def toFixed1 (q : ℚ) : String :=
  let n : Int := Rat.floor (q * 10 + 1 / 2)
  natToStr (n / 10).toNat ++ "." ++ natToStr (n % 10).toNat

/-- The value rendered for the completion-rate card: the string
`((resolvedCount / totalReports) * 100).toFixed(1)` when
`totalReports > 0`, else the number `0`. -/
def completionRate (stats : AggregateStats) : JsValue :=
  if totalReports stats > 0 then
    .str (toFixed1 ((resolvedCount stats : ℚ) / (totalReports stats : ℚ) * 100))
  else
    .num 0

/-! ### Concrete fixtures used to instantiate the theorems -/

/-- A report without a `created_date` (the server never omits it per §3,
but the sort must still be total on what the cache holds). -/
def reportNoDate : Report :=
  { id := 1, station_city := "Edmonton", station_name := "Central",
    issue_category := "Broken Elevator", description := "stuck on level 2",
    urgency_level := "Low", status := "Submitted", created_date := none,
    created_by := none, photo_url := none }

/-- A report dated 2024-06-01, urgency Critical. -/
def reportJune : Report :=
  { id := 2, station_city := "Calgary", station_name := "City Hall",
    issue_category := "Safety Concern", description := "broken railing",
    urgency_level := "Critical", status := "Submitted",
    created_date := some "2024-06-01", created_by := none, photo_url := none }

/-- A report dated 2024-01-01, urgency Medium. -/
def reportJan : Report :=
  { id := 3, station_city := "Edmonton", station_name := "Southgate",
    issue_category := "Lighting Issue", description := "dark platform",
    urgency_level := "Medium", status := "Submitted",
    created_date := some "2024-01-01", created_by := none, photo_url := none }

/-- First of two reports with equal urgency High (stability fixture). -/
def reportHighA : Report :=
  { id := 4, station_city := "Edmonton", station_name := "Coliseum",
    issue_category := "Blocked Access", description := "cart in doorway",
    urgency_level := "High", status := "Submitted",
    created_date := some "2024-03-05", created_by := none, photo_url := none }

/-- Second of two reports with equal urgency High (stability fixture). -/
def reportHighB : Report :=
  { id := 5, station_city := "Calgary", station_name := "Sunnyside",
    issue_category := "Vandalism", description := "graffiti on sign",
    urgency_level := "High", status := "Submitted",
    created_date := some "2024-04-09", created_by := none, photo_url := none }

/-- A form whose only empty required field is `description`. -/
def formMissingDescription : FormState :=
  { station_city := "Edmonton", station_name := "Central",
    issue_category := "Other", description := "",
    urgency_level := "Medium", reporter_contact := "" }

/-- A form whose only empty required field is `station_city`. -/
def formMissingCity : FormState :=
  { station_city := "", station_name := "Central",
    issue_category := "Other", description := "loose tile",
    urgency_level := "Medium", reporter_contact := "" }

/-- A fully filled-in form. -/
def formComplete : FormState :=
  { station_city := "Edmonton", station_name := "Central",
    issue_category := "Slippery Surface", description := "ice at entrance",
    urgency_level := "High", reporter_contact := "a@b.c" }

/-- A previously selected (valid) photo. -/
def priorPhoto : JsFile := { name := "old.jpg", size := 2048 }

/-- A photo of exactly 10 MiB = 10485760 bytes. -/
def photoExactLimit : JsFile := { name := "ten.jpg", size := 10485760 }

/-- A photo of 10 MiB + 1 byte = 10485761 bytes. -/
def photoOverLimit : JsFile := { name := "big.jpg", size := 10485761 }

/-- Photo form state with no selection and no error. -/
def emptyPhotoState : PhotoFormState := { photo := none, error := none }

/-- Photo form state holding a previously selected photo. -/
def priorPhotoState : PhotoFormState :=
  { photo := some priorPhoto, error := none }

/-- Photo form state holding a photo and a pending error. -/
def erroredPhotoState : PhotoFormState :=
  { photo := some priorPhoto, error := some fileSizeErrorMsg }

/-- The stats instance of §8: `{total: 10, by_status: {Resolved: 3}}`. -/
def c8ExampleStats : AggregateStats :=
  { total := some 10, by_category := none, by_urgency := none,
    by_status := some [("Resolved", 3)], by_city := none,
    top_stations := none }

/-- A stats object with every aggregate field absent. -/
def statsAllAbsent : AggregateStats :=
  { total := none, by_category := none, by_urgency := none,
    by_status := none, by_city := none, top_stations := none }

/-- A 404 response for a single-record fetch of an absent id. -/
def resp404 : JsResponse :=
  { ok := false, status := 404, statusText := "Not Found",
    bodyText := "Report not found", contentType := none }

/-- The empty Dashboard filter object `{}`. -/
def emptyFilters : FilterState :=
  { search := none, status := none, urgency := none, city := none,
    sort := none }

/-! ### Lemmas about the stable sort -/

theorem mem_insertJS {α : Type} (le : α → α → Bool) (x a : α) :
    ∀ l : List α, a ∈ insertJS le x l ↔ a = x ∨ a ∈ l := by
  intro l
  induction l with
  | nil => simp [insertJS]
  | cons y ys ih =>
      by_cases h : le x y = true
      · simp only [insertJS, if_pos h, List.mem_cons]
      · simp only [insertJS, if_neg h, List.mem_cons, ih]
        tauto

theorem mem_jsStableSort {α : Type} (le : α → α → Bool) (a : α) :
    ∀ l : List α, a ∈ jsStableSort le l ↔ a ∈ l := by
  intro l
  induction l with
  | nil => simp [jsStableSort]
  | cons y ys ih =>
      simp only [jsStableSort, List.foldr_cons] at *
      rw [mem_insertJS, ih, List.mem_cons]

theorem pairwise_insertJS {α : Type} (le : α → α → Bool) (P : α → Prop)
    (htot : ∀ a b, P a → P b → le a b = true ∨ le b a = true)
    (htr : ∀ a b c, P a → P b → P c →
      le a b = true → le b c = true → le a c = true)
    (x : α) (hx : P x) :
    ∀ l : List α, (∀ y ∈ l, P y) →
      l.Pairwise (fun a b => le a b = true) →
      (insertJS le x l).Pairwise (fun a b => le a b = true) := by
  intro l
  induction l with
  | nil => intro _ _; simp [insertJS]
  | cons y ys ih =>
      intro hP hpw
      have hPy : P y := hP y (by simp)
      have hPys : ∀ z ∈ ys, P z := fun z hz => hP z (by simp [hz])
      rw [List.pairwise_cons] at hpw
      by_cases h : le x y = true
      · rw [insertJS, if_pos h, List.pairwise_cons]
        constructor
        · intro z hz
          rcases List.mem_cons.mp hz with h1 | h1
          · rw [h1]; exact h
          · exact htr x y z hx hPy (hPys z h1) h (hpw.1 z h1)
        · rw [List.pairwise_cons]
          exact hpw
      · rw [insertJS, if_neg h, List.pairwise_cons]
        constructor
        · intro z hz
          rcases (mem_insertJS le x z ys).mp hz with h1 | h1
          · rw [h1]
            rcases htot x y hx hPy with h2 | h2
            · exact absurd h2 h
            · exact h2
          · exact hpw.1 z h1
        · exact ih hPys hpw.2

theorem sorted_jsStableSort {α : Type} (le : α → α → Bool) (P : α → Prop)
    (htot : ∀ a b, P a → P b → le a b = true ∨ le b a = true)
    (htr : ∀ a b c, P a → P b → P c →
      le a b = true → le b c = true → le a c = true) :
    ∀ l : List α, (∀ y ∈ l, P y) →
      (jsStableSort le l).Pairwise (fun a b => le a b = true) := by
  intro l
  induction l with
  | nil => intro _; simp [jsStableSort]
  | cons y ys ih =>
      intro hP
      have hPys : ∀ z ∈ ys, P z := fun z hz => hP z (by simp [hz])
      have hmem : ∀ z ∈ jsStableSort le ys, P z := fun z hz =>
        hPys z ((mem_jsStableSort le z ys).mp hz)
      exact pairwise_insertJS le P htot htr y (hP y (by simp))
        (jsStableSort le ys) hmem (ih hPys)

theorem filter_insertJS_neg {α : Type} (le : α → α → Bool) (p : α → Bool)
    (x : α) (hx : p x = false) :
    ∀ l : List α, (insertJS le x l).filter p = l.filter p := by
  intro l
  induction l with
  | nil => simp [insertJS, hx]
  | cons y ys ih =>
      by_cases h : le x y = true
      · simp [insertJS, h, List.filter, hx]
      · simp only [insertJS, if_neg h]
        simp [List.filter, ih]

theorem filter_insertJS_pos {α : Type} (le : α → α → Bool) (p : α → Bool)
    (x : α) (hx : p x = true) :
    ∀ l : List α, (∀ y ∈ l, p y = true → le x y = true) →
      (insertJS le x l).filter p = x :: l.filter p := by
  intro l
  induction l with
  | nil => intro _; simp [insertJS, hx]
  | cons y ys ih =>
      intro hties
      by_cases h : le x y = true
      · simp [insertJS, h, List.filter, hx]
      · have hpy : p y = false := by
          cases hpy : p y with
          | false => rfl
          | true => exact absurd (hties y (by simp) hpy) h
        simp only [insertJS, if_neg h]
        rw [List.filter_cons_of_neg (by simp [hpy]),
          List.filter_cons_of_neg (by simp [hpy])]
        exact ih fun z hz hpz => hties z (by simp [hz]) hpz

theorem filter_jsStableSort {α : Type} (le : α → α → Bool) (p : α → Bool)
    (hties : ∀ x y, p x = true → p y = true → le x y = true) :
    ∀ l : List α, (jsStableSort le l).filter p = l.filter p := by
  intro l
  induction l with
  | nil => simp [jsStableSort]
  | cons y ys ih =>
      show (insertJS le y (jsStableSort le ys)).filter p = _
      by_cases h : p y = true
      · rw [filter_insertJS_pos le p y h (jsStableSort le ys)
          (fun z _ hz => hties y z h hz), ih,
          List.filter_cons_of_pos (by simp [h])]
      · rw [filter_insertJS_neg le p y (by simpa using h), ih,
          List.filter_cons_of_neg (by simpa using h)]

/-! ### Lemmas about decimal rendering -/

/-- Numeric value of a most-significant-first digit list. -/
def decVal (l : List Nat) : Nat :=
  l.foldl (fun a d => a * 10 + d) 0

theorem decVal_append_single (l : List Nat) (d : Nat) :
    decVal (l ++ [d]) = decVal l * 10 + d := by
  simp [decVal, List.foldl_append]

theorem decVal_decDigitsAux :
    ∀ fuel n : Nat, n < fuel → decVal (decDigitsAux fuel n) = n := by
  intro fuel
  induction fuel with
  | zero => intro n h; exact absurd h (Nat.not_lt_zero n)
  | succ fuel ih =>
      intro n h
      by_cases h10 : n < 10
      · simp [decDigitsAux, h10, decVal]
      · have hn0 : 0 < n :=
          Nat.lt_of_lt_of_le (by norm_num) (Nat.not_lt.mp h10)
        have hdiv : n / 10 < n := Nat.div_lt_self hn0 (by norm_num)
        have hfuel : n / 10 < fuel :=
          Nat.lt_of_lt_of_le hdiv (Nat.lt_succ_iff.mp h)
        rw [decDigitsAux, if_neg h10, decVal_append_single, ih _ hfuel,
          Nat.mul_comm]
        exact Nat.div_add_mod n 10

theorem decVal_decDigits (n : Nat) : decVal (decDigits n) = n :=
  decVal_decDigitsAux (n + 1) n (Nat.lt_succ_self n)

theorem decDigits_inj {m n : Nat} (h : decDigits m = decDigits n) : m = n := by
  have := decVal_decDigits m
  rw [h, decVal_decDigits] at this
  exact this.symm

theorem decDigitsAux_lt10 :
    ∀ fuel n : Nat, ∀ d ∈ decDigitsAux fuel n, d < 10 := by
  intro fuel
  induction fuel with
  | zero => intro n d hd; simp [decDigitsAux] at hd
  | succ fuel ih =>
      intro n d hd
      by_cases h10 : n < 10
      · simp [decDigitsAux, h10] at hd
        rw [hd]; exact h10
      · rw [decDigitsAux, if_neg h10] at hd
        rcases List.mem_append.mp hd with h1 | h1
        · exact ih _ d h1
        · simp at h1
          rw [h1]
          exact Nat.mod_lt n (by norm_num)

theorem digitChar_inj :
    ∀ d, d < 10 → ∀ e, e < 10 → digitChar d = digitChar e → d = e := by
  decide

theorem digitChar_isDigit : ∀ d : Nat, d < 10 → (digitChar d).isDigit = true := by
  decide

theorem map_digitChar_inj :
    ∀ l₁ l₂ : List Nat, (∀ d ∈ l₁, d < 10) → (∀ d ∈ l₂, d < 10) →
      l₁.map digitChar = l₂.map digitChar → l₁ = l₂ := by
  intro l₁
  induction l₁ with
  | nil => intro l₂ _ _ h; cases l₂ <;> simp_all
  | cons d ds ih =>
      intro l₂ h1 h2 h
      cases l₂ with
      | nil => simp at h
      | cons e es =>
          simp only [List.map_cons, List.cons.injEq] at h
          have hde : d = e :=
            digitChar_inj d (h1 d (by simp)) e (h2 e (by simp)) h.1
          rw [hde, ih es (fun x hx => h1 x (by simp [hx]))
            (fun x hx => h2 x (by simp [hx])) h.2]

theorem natToStr_inj {m n : Nat} (h : natToStr m = natToStr n) : m = n := by
  have hdata : ((decDigits m).map digitChar) = ((decDigits n).map digitChar) := by
    have := congrArg String.data h
    exact this
  exact decDigits_inj (map_digitChar_inj _ _
    (fun d hd => decDigitsAux_lt10 _ _ d hd)
    (fun d hd => decDigitsAux_lt10 _ _ d hd) hdata)

/-- `takeWhile` of an all-satisfying prefix followed by a failing
character returns exactly the prefix. -/
theorem takeWhile_append_stop (p : Char → Bool) (c : Char) (hc : p c = false) :
    ∀ l r : List Char, (∀ x ∈ l, p x = true) →
      (l ++ c :: r).takeWhile p = l := by
  intro l
  induction l with
  | nil => intro r _; simp [List.takeWhile, hc]
  | cons x xs ih =>
      intro r h
      have hx : p x = true := h x (by simp)
      simp only [List.cons_append, List.takeWhile_cons, hx, if_true]
      rw [ih r (fun y hy => h y (by simp [hy]))]

/-! ### Lemmas about the error-message status classifier -/

theorem statusDigits_of_errorMessage (s : Nat) (d : String) :
    statusDigitsOfMessage ("API Error: " ++ natToStr s ++ " - " ++ d) =
      natToStr s := by
  unfold statusDigitsOfMessage
  have hdata :
      ("API Error: " ++ natToStr s ++ " - " ++ d).data =
        "API Error: ".data ++
          (((decDigits s).map digitChar) ++ (' ' :: '-' :: ' ' :: d.data)) := by
    simp only [String.data_append]
    have h1 : (natToStr s).data = (decDigits s).map digitChar := rfl
    rw [h1]
    simp
  rw [hdata]
  have h11 : ("API Error: ".data).length = 11 := rfl
  rw [← h11, List.drop_left]
  rw [takeWhile_append_stop _ ' ' rfl _ _
    (fun x hx => by
      rcases List.mem_map.mp hx with ⟨dd, hdd, hdx⟩
      rw [← hdx]
      exact digitChar_isDigit dd (decDigitsAux_lt10 _ _ dd hdd))]
  rfl

/-! ### Generic sortedness for the key-difference comparators -/

theorem pairwise_imp_mem {α : Type} {R S : α → α → Prop} :
    ∀ l : List α, (∀ a b, a ∈ l → b ∈ l → R a b → S a b) →
      l.Pairwise R → l.Pairwise S := by
  intro l
  induction l with
  | nil => intro _ _; exact List.Pairwise.nil
  | cons x xs ih =>
      intro h hp
      rw [List.pairwise_cons] at hp ⊢
      constructor
      · intro b hb
        exact h x b (by simp) (by simp [hb]) (hp.1 b hb)
      · exact ih (fun a b ha hb => h a b (by simp [ha]) (by simp [hb])) hp.2

theorem jsLe_of_keys {k : Report → Option Int} {sortKey : Option String}
    (hcmp : ∀ a b, reportComparator sortKey a b = jsSub (k b) (k a))
    {a b : Report} {ka kb : Int} (hka : k a = some ka) (hkb : k b = some kb) :
    jsLe (reportComparator sortKey) a b = decide (kb ≤ ka) := by
  rw [jsLe, hcmp, hka, hkb, jsSub]
  simp only [decide_eq_decide]
  omega

theorem sorted_of_key (k : Report → Option Int) (sortKey : Option String)
    (hcmp : ∀ a b, reportComparator sortKey a b = jsSub (k b) (k a)) :
    ∀ l : List Report, (∀ r ∈ l, (k r).isSome = true) →
      (sortedReports sortKey l).Pairwise
        (fun a b => (k b).getD 0 ≤ (k a).getD 0) := by
  intro l hl
  have hmain :
      (sortedReports sortKey l).Pairwise
        (fun a b => jsLe (reportComparator sortKey) a b = true) := by
    apply sorted_jsStableSort _ (fun r => (k r).isSome = true)
    · intro a b ha hb
      rcases Option.isSome_iff_exists.mp ha with ⟨ka, hka⟩
      rcases Option.isSome_iff_exists.mp hb with ⟨kb, hkb⟩
      rw [jsLe_of_keys hcmp hka hkb, jsLe_of_keys hcmp hkb hka]
      simp only [decide_eq_true_eq]
      omega
    · intro a b c ha hb hc hab hbc
      rcases Option.isSome_iff_exists.mp ha with ⟨ka, hka⟩
      rcases Option.isSome_iff_exists.mp hb with ⟨kb, hkb⟩
      rcases Option.isSome_iff_exists.mp hc with ⟨kc, hkc⟩
      rw [jsLe_of_keys hcmp hka hkb] at hab
      rw [jsLe_of_keys hcmp hkb hkc] at hbc
      rw [jsLe_of_keys hcmp hka hkc]
      simp only [decide_eq_true_eq] at *
      omega
    · exact hl
  apply pairwise_imp_mem _ _ hmain
  intro a b ha hb hab
  have ha' := hl a ((mem_jsStableSort _ a l).mp ha)
  have hb' := hl b ((mem_jsStableSort _ b l).mp hb)
  rcases Option.isSome_iff_exists.mp ha' with ⟨ka, hka⟩
  rcases Option.isSome_iff_exists.mp hb' with ⟨kb, hkb⟩
  rw [jsLe_of_keys hcmp hka hkb] at hab
  rw [hka, hkb]
  simpa using hab

/-! ### Claim theorems -/

/-- C1: the invalidation call wired to the create mutation
(`invalidateQueries({ queryKey: ['reports', 'stats'] })` in
`HomeContent`) matches no registered query key: not the Dashboard list
key `['reports', filters]` for any filter state, and not the aggregate
stats key `['stats']` — so a successful create invalidates neither the
list queries nor the stats query, contradicting the claim (the key
element `'stats'` is compared against the filters object and fails, and
the two-element filter key cannot be a prefix of the one-element stats
key). -/
theorem create_invalidation_misses_all_query_keys :
    ∀ f : FilterState,
      partialKeyMatch createSuccessInvalidationKey (dashboardKey f) = false ∧
      partialKeyMatch createSuccessInvalidationKey statsKey = false ∧
      invalidatedKeys createSuccessInvalidationKey
        [dashboardKey f, statsKey] = [] := by
  intro f
  refine ⟨?_, ?_, ?_⟩ <;>
    simp [partialKeyMatch, partEq, createSuccessInvalidationKey,
      dashboardKey, statsKey, invalidatedKeys]

/-- C2 (counterexample): a payload missing only `description` and a
payload missing only `station_city` produce the same fixed validation
message, and that message does not contain the field name
`description` — the error does not list the missing fields. -/
theorem validation_error_does_not_list_missing_fields :
    handleSubmit formMissingDescription none GeoResult.unavailable =
      SubmitOutcome.validationError requiredFieldsMsg ∧
    jsIncludes requiredFieldsMsg "description" = false ∧
    jsIncludes requiredFieldsMsg "station_city" = false ∧
    handleSubmit formMissingCity none GeoResult.unavailable =
      SubmitOutcome.validationError requiredFieldsMsg := by
  refine ⟨?_, by decide, by decide, ?_⟩ <;> decide

/-- C2 (amended): a create attempt with any of the four required fields
empty fails fast with the fixed validation message and never reaches the
mutation (no network call). -/
theorem missing_required_field_fails_fast :
    ∀ (form : FormState) (photo : Option JsFile) (geo : GeoResult),
      (form.station_city = "" ∨ form.station_name = "" ∨
        form.issue_category = "" ∨ form.description = "") →
      handleSubmit form photo geo =
        SubmitOutcome.validationError requiredFieldsMsg ∧
      ∀ (p : ReportPayload) (ph : Option JsFile),
        handleSubmit form photo geo ≠ SubmitOutcome.submit p ph := by
  intro form photo geo h
  have key : handleSubmit form photo geo =
      SubmitOutcome.validationError requiredFieldsMsg := by
    cases geo <;> simp [handleSubmit, h]
  exact ⟨key, by
    intro p ph hc
    rw [key] at hc
    exact SubmitOutcome.noConfusion hc⟩

/-- C2 witness: the amended theorem applied to the form missing only its
description. -/
theorem missing_required_field_fails_fast_witness :
    (formMissingDescription.station_city = "" ∨
      formMissingDescription.station_name = "" ∨
      formMissingDescription.issue_category = "" ∨
      formMissingDescription.description = "") ∧
    (handleSubmit formMissingDescription none GeoResult.failure =
      SubmitOutcome.validationError requiredFieldsMsg ∧
    ∀ (p : ReportPayload) (ph : Option JsFile),
      handleSubmit formMissingDescription none GeoResult.failure ≠
        SubmitOutcome.submit p ph) :=
  ⟨by decide,
   missing_required_field_fails_fast formMissingDescription none
     GeoResult.failure (by decide)⟩

/-- C3: `handlePhotoChange` accepts a selected file of size up to and
including 10 * 1024 * 1024 = 10485760 bytes (stores it, clears the
error) and rejects any strictly larger file with the size-limit error,
before anything is submitted. -/
theorem photo_size_limit_boundary :
    ∀ (st : PhotoFormState) (f : JsFile),
      (f.size ≤ 10 * 1024 * 1024 →
        handlePhotoChange (some f) st = { photo := some f, error := none }) ∧
      (10 * 1024 * 1024 < f.size →
        handlePhotoChange (some f) st =
          { st with error := some fileSizeErrorMsg }) := by
  intro st f
  constructor
  · intro h
    simp [handlePhotoChange, Nat.not_lt.mpr h]
  · intro h
    simp [handlePhotoChange, h]

/-- C3 witness: a file of exactly 10485760 bytes is accepted; a file of
10485761 bytes is rejected. -/
theorem photo_size_limit_boundary_witness :
    (photoExactLimit.size ≤ 10 * 1024 * 1024 ∧
      handlePhotoChange (some photoExactLimit) emptyPhotoState =
        { photo := some photoExactLimit, error := none }) ∧
    (10 * 1024 * 1024 < photoOverLimit.size ∧
      handlePhotoChange (some photoOverLimit) emptyPhotoState =
        { emptyPhotoState with error := some fileSizeErrorMsg }) :=
  ⟨⟨by decide,
    (photo_size_limit_boundary emptyPhotoState photoExactLimit).1 (by decide)⟩,
   ⟨by decide,
    (photo_size_limit_boundary emptyPhotoState photoOverLimit).2 (by decide)⟩⟩

/-- C10: selecting an oversized file sets the size-limit error but
leaves the previously selected photo untouched; selecting a valid file
replaces the photo and clears any pending error. -/
theorem photo_error_frame_effect :
    ∀ (st : PhotoFormState) (f : JsFile),
      (10 * 1024 * 1024 < f.size →
        (handlePhotoChange (some f) st).photo = st.photo ∧
        (handlePhotoChange (some f) st).error = some fileSizeErrorMsg) ∧
      (f.size ≤ 10 * 1024 * 1024 →
        (handlePhotoChange (some f) st).photo = some f ∧
        (handlePhotoChange (some f) st).error = none) := by
  intro st f
  constructor
  · intro h
    simp [handlePhotoChange, h]
  · intro h
    simp [handlePhotoChange, Nat.not_lt.mpr h]

/-- C10 witness: on a state holding a prior photo, an oversized
selection preserves that photo while setting the error; on a state
holding a pending error, a valid selection replaces the photo and
clears the error. -/
theorem photo_error_frame_effect_witness :
    (10 * 1024 * 1024 < photoOverLimit.size ∧
      (handlePhotoChange (some photoOverLimit) priorPhotoState).photo =
        priorPhotoState.photo ∧
      (handlePhotoChange (some photoOverLimit) priorPhotoState).error =
        some fileSizeErrorMsg) ∧
    (photoExactLimit.size ≤ 10 * 1024 * 1024 ∧
      (handlePhotoChange (some photoExactLimit) erroredPhotoState).photo =
        some photoExactLimit ∧
      (handlePhotoChange (some photoExactLimit) erroredPhotoState).error =
        none) :=
  ⟨⟨by decide,
    (photo_error_frame_effect priorPhotoState photoOverLimit).1 (by decide)⟩,
   ⟨by decide,
    (photo_error_frame_effect erroredPhotoState photoExactLimit).2 (by decide)⟩⟩

/-- C4: once validation passes, every geolocation result leads to
exactly one submission — with the device coordinates from the success
callback, or with `latitude`/`longitude` left `null` when the capability
is unavailable or the attempt fails — and the geolocation attempt never
produces a validation (user-visible) error. -/
theorem geolocation_never_blocks_submission :
    ∀ (form : FormState) (photo : Option JsFile) (geo : GeoResult),
      ¬(form.station_city = "" ∨ form.station_name = "" ∨
        form.issue_category = "" ∨ form.description = "") →
      ((∃ lat lng, geo = GeoResult.success lat lng ∧
          handleSubmit form photo geo =
            SubmitOutcome.submit
              { basePayload form with
                  latitude := some lat, longitude := some lng } photo) ∨
        ((geo = GeoResult.unavailable ∨ geo = GeoResult.failure) ∧
          handleSubmit form photo geo =
            SubmitOutcome.submit (basePayload form) photo)) ∧
      ∀ msg, handleSubmit form photo geo ≠
        SubmitOutcome.validationError msg := by
  intro form photo geo h
  cases geo with
  | unavailable =>
      refine ⟨Or.inr ⟨Or.inl rfl, ?_⟩, ?_⟩ <;> simp [handleSubmit, h]
  | failure =>
      refine ⟨Or.inr ⟨Or.inr rfl, ?_⟩, ?_⟩ <;> simp [handleSubmit, h]
  | success lat lng =>
      refine ⟨Or.inl ⟨lat, lng, rfl, ?_⟩, ?_⟩ <;> simp [handleSubmit, h]

/-- C4 witness: the theorem applied to a complete form with a failing
geolocation attempt. -/
theorem geolocation_never_blocks_submission_witness :
    (¬(formComplete.station_city = "" ∨ formComplete.station_name = "" ∨
       formComplete.issue_category = "" ∨ formComplete.description = "")) ∧
    (((∃ lat lng, GeoResult.failure = GeoResult.success lat lng ∧
        handleSubmit formComplete none GeoResult.failure =
          SubmitOutcome.submit
            { basePayload formComplete with
                latitude := some lat, longitude := some lng } none) ∨
      ((GeoResult.failure = GeoResult.unavailable ∨
        GeoResult.failure = GeoResult.failure) ∧
        handleSubmit formComplete none GeoResult.failure =
          SubmitOutcome.submit (basePayload formComplete) none)) ∧
    ∀ msg, handleSubmit formComplete none GeoResult.failure ≠
      SubmitOutcome.validationError msg) :=
  ⟨by decide,
   geolocation_never_blocks_submission formComplete none GeoResult.failure
     (by decide)⟩

/-- C5 (counterexample): under the default sort, a report with a missing
`created_date` compares as a tie (`NaN` comparator result coerced to 0)
with every report, so the stable sort leaves it in front of a dated
report instead of sorting it as earliest (last): the claimed placement
fails on this two-element collection. -/
theorem missing_date_not_sorted_earliest :
    sortedReports none [reportNoDate, reportJune] =
      [reportNoDate, reportJune] ∧
    jsDateOf reportNoDate = none ∧
    (jsDateOf reportJune).isSome = true ∧
    reportNoDate ≠ reportJune := by
  refine ⟨by decide, by decide, by decide, by decide⟩

/-- C5 (amended): for a collection in which every report has a parseable
`created_date`, sorting with the default `created_date:desc` yields
parsed timestamps in non-increasing order. (An entry with a missing or
unparseable date instead ties with every entry and keeps its original
position, as the counterexample shows.) -/
theorem created_date_desc_nonincreasing :
    ∀ (sortKey : Option String) (l : List Report),
      (sortKey = none ∨ sortKey = some "created_date:desc") →
      (∀ r ∈ l, (jsDateOf r).isSome = true) →
      (sortedReports sortKey l).Pairwise
        (fun a b => (jsDateOf b).getD 0 ≤ (jsDateOf a).getD 0) := by
  intro sortKey l hs hl
  apply sorted_of_key jsDateOf sortKey _ l hl
  intro a b
  rcases hs with rfl | rfl <;> simp [reportComparator]

/-- C5 witness: the amended theorem applied to two dated reports under
the default sort. -/
theorem created_date_desc_nonincreasing_witness :
    (∀ r ∈ [reportJan, reportJune], (jsDateOf r).isSome = true) ∧
    (sortedReports none [reportJan, reportJune]).Pairwise
      (fun a b => (jsDateOf b).getD 0 ≤ (jsDateOf a).getD 0) :=
  ⟨by decide,
   created_date_desc_nonincreasing none [reportJan, reportJune]
     (Or.inl rfl) (by decide)⟩

/-- C6: sorting with `urgency_level:desc` yields urgency ranks
(Critical=4, High=3, Medium=2, Low=1) in non-increasing order whenever
every entry carries one of the four levels, and entries of any equal
rank `k` keep their original relative order (the sort is stable). -/
theorem urgency_desc_nonincreasing_and_stable :
    ∀ (l : List Report) (k : Int),
      (∀ r ∈ l, (urgencyRankOf r).isSome = true) →
      (sortedReports (some "urgency_level:desc") l).Pairwise
        (fun a b => (urgencyRankOf b).getD 0 ≤ (urgencyRankOf a).getD 0) ∧
      (sortedReports (some "urgency_level:desc") l).filter
          (fun r => urgencyRankOf r == some k) =
        l.filter (fun r => urgencyRankOf r == some k) := by
  intro l k hl
  have hcmp : ∀ a b, reportComparator (some "urgency_level:desc") a b =
      jsSub (urgencyRankOf b) (urgencyRankOf a) := by
    intro a b
    simp [reportComparator]
  constructor
  · exact sorted_of_key urgencyRankOf _ hcmp l hl
  · apply filter_jsStableSort
    intro x y hx hy
    have hx2 : urgencyRankOf x = some k := by simpa using hx
    have hy2 : urgencyRankOf y = some k := by simpa using hy
    rw [jsLe_of_keys hcmp hx2 hy2]
    simp

/-- C6 witness: the theorem applied to a Critical report followed by two
High reports; the two High entries tie at rank 3 and keep their
original order. -/
theorem urgency_desc_nonincreasing_and_stable_witness :
    (∀ r ∈ [reportHighA, reportJune, reportHighB],
      (urgencyRankOf r).isSome = true) ∧
    ((sortedReports (some "urgency_level:desc")
        [reportHighA, reportJune, reportHighB]).Pairwise
      (fun a b => (urgencyRankOf b).getD 0 ≤ (urgencyRankOf a).getD 0) ∧
     (sortedReports (some "urgency_level:desc")
        [reportHighA, reportJune, reportHighB]).filter
          (fun r => urgencyRankOf r == some 3) =
        [reportHighA, reportJune, reportHighB].filter
          (fun r => urgencyRankOf r == some 3)) :=
  ⟨by decide,
   urgency_desc_nonincreasing_and_stable
     [reportHighA, reportJune, reportHighB] 3 (by decide)⟩

/-- C7: every non-2xx response to a single-record fetch produces an
error whose message embeds the decimal status code right after the fixed
prefix, so the not-found case is distinguishable from every other
non-2xx error: reading the digit run back out of the message yields
`"404"` exactly when the response status was 404. -/
theorem not_found_error_distinguishable :
    ∀ res : JsResponse, res.ok = false →
      ∃ e : JsError, getReport res = Except.error e ∧
        (statusDigitsOfMessage e.message = "404" ↔ res.status = 404) := by
  intro res hok
  refine ⟨⟨"API Error: " ++ natToStr res.status ++ " - " ++
    (if res.bodyText = "" then res.statusText else res.bodyText)⟩, ?_, ?_⟩
  · simp [getReport, handleResponse, hok]
  · have hrec := statusDigits_of_errorMessage res.status
      (if res.bodyText = "" then res.statusText else res.bodyText)
    have h404 : natToStr 404 = "404" := by decide
    constructor
    · intro h
      rw [hrec, ← h404] at h
      exact natToStr_inj h
    · intro h
      rw [hrec, h, h404]

/-- C7 witness: the theorem applied to a concrete 404 response. -/
theorem not_found_error_distinguishable_witness :
    resp404.ok = false ∧
    ∃ e : JsError, getReport resp404 = Except.error e ∧
      (statusDigitsOfMessage e.message = "404" ↔ resp404.status = 404) :=
  ⟨rfl, not_found_error_distinguishable resp404 rfl⟩

/-- C8: with `total = 0` (or the field absent) the completion rate is
the number `0`, not `NaN` or an error; and for
`{total: 10, by_status: {Resolved: 3}}` it is `"30.0"` (the value of
`((3 / 10) * 100).toFixed(1)`). -/
theorem completionRate_zero_and_example :
    (∀ stats : AggregateStats, totalReports stats = 0 →
        completionRate stats = JsValue.num 0) ∧
    completionRate c8ExampleStats = JsValue.str "30.0" := by
  constructor
  · intro stats h
    simp [completionRate, h]
  · have hres : resolvedCount c8ExampleStats = 3 := rfl
    have htot : totalReports c8ExampleStats = 10 := rfl
    rw [completionRate, hres, htot, if_pos (by norm_num)]
    have harg : ((3 : ℕ) : ℚ) / ((10 : ℕ) : ℚ) * 100 = 30 := by norm_num
    rw [harg]
    have hf : Rat.floor ((30 : ℚ) * 10 + 1 / 2) = 300 := by
      have hx : ((30 : ℚ) * 10 + 1 / 2) = 601 / 2 := by norm_num
      rw [hx]
      show ⌊(601 : ℚ) / 2⌋ = 300
      norm_num
    simp only [toFixed1, hf]
    decide

/-- C8 witness: the zero-total branch of the theorem applied to a stats
object with every field absent. -/
theorem completionRate_zero_and_example_witness :
    totalReports statsAllAbsent = 0 ∧
    completionRate statsAllAbsent = JsValue.num 0 :=
  ⟨rfl, completionRate_zero_and_example.1 statsAllAbsent rfl⟩

/-- C9: whenever a submission goes out without geolocation success, the
built multipart body contains no `latitude` or `longitude` entry at all
(the `null` fields are skipped, not stringified), and in general every
payload field whose value is `null` is absent from the form data. -/
theorem null_fields_omitted_from_formdata :
    ∀ (form : FormState) (photo : Option JsFile) (geo : GeoResult)
      (p : ReportPayload),
      (geo = GeoResult.unavailable ∨ geo = GeoResult.failure) →
      handleSubmit form photo geo = SubmitOutcome.submit p photo →
      (∀ kv ∈ payloadEntries p, kv.2 = JsValue.null →
        ¬ kv.1 ∈ (mutationFn p photo).map Prod.fst) ∧
      ¬ "latitude" ∈ (mutationFn p photo).map Prod.fst ∧
      ¬ "longitude" ∈ (mutationFn p photo).map Prod.fst := by
  intro form photo geo p hgeo hsub
  have hp : p = basePayload form := by
    have hcase : handleSubmit form photo geo =
        SubmitOutcome.validationError requiredFieldsMsg ∨
        handleSubmit form photo geo =
        SubmitOutcome.submit (basePayload form) photo := by
      rcases hgeo with rfl | rfl <;>
        · by_cases hv : form.station_city = "" ∨ form.station_name = "" ∨
            form.issue_category = "" ∨ form.description = ""
          · exact Or.inl (by simp [handleSubmit, hv])
          · exact Or.inr (by simp [handleSubmit, hv])
    rcases hcase with hc | hc
    · rw [hc] at hsub
      exact absurd hsub (by intro hx; exact SubmitOutcome.noConfusion hx)
    · rw [hc] at hsub
      injection hsub with h1 h2
      exact h1.symm
  subst hp
  have main : ∀ ph : Option JsFile,
      ¬ "latitude" ∈ (mutationFn (basePayload form) ph).map Prod.fst ∧
      ¬ "longitude" ∈ (mutationFn (basePayload form) ph).map Prod.fst := by
    intro ph
    cases ph with
    | none =>
        constructor <;> simp [mutationFn, payloadEntries, basePayload]
    | some f =>
        constructor <;> simp [mutationFn, payloadEntries, basePayload]
  refine ⟨?_, (main photo).1, (main photo).2⟩
  intro kv hkv hnull
  have hmem : kv.1 = "latitude" ∨ kv.1 = "longitude" := by
    simp [payloadEntries, basePayload] at hkv
    rcases hkv with h | h | h | h | h | h | h | h | h <;>
      rw [h] at hnull ⊢ <;> simp_all
  rcases hmem with h | h
  · rw [h]; exact (main photo).1
  · rw [h]; exact (main photo).2

/-- C9 witness: the theorem applied to a complete form submitted after a
failed geolocation attempt, with no photo attached. -/
theorem null_fields_omitted_from_formdata_witness :
    (GeoResult.failure = GeoResult.unavailable ∨
      GeoResult.failure = GeoResult.failure) ∧
    handleSubmit formComplete none GeoResult.failure =
      SubmitOutcome.submit (basePayload formComplete) none ∧
    ((∀ kv ∈ payloadEntries (basePayload formComplete),
        kv.2 = JsValue.null →
        ¬ kv.1 ∈ (mutationFn (basePayload formComplete) none).map Prod.fst) ∧
      ¬ "latitude" ∈
        (mutationFn (basePayload formComplete) none).map Prod.fst ∧
      ¬ "longitude" ∈
        (mutationFn (basePayload formComplete) none).map Prod.fst) :=
  ⟨Or.inr rfl, by decide,
   null_fields_omitted_from_formdata formComplete none GeoResult.failure
     (basePayload formComplete) (Or.inr rfl) (by decide)⟩

end App
